import Mathlib

/-!
Verification of the bemufix backend core: vehicle lookup with cache and
fallback (`VehicleLookupService`), the static BMW knowledge base
(`BMWIntelligence`), the cache-store wrapper (`RedisService`) and the
rule-based chat endpoint (`chatV2`).  Each JavaScript/TypeScript function
is embedded as an executable Lean definition; external collaborators
(headless browser, HTTP client, Redis client, UUID and clock) are passed
in as explicit oracle parameters.  JavaScript numbers that the code uses
for exact small-scale arithmetic are modelled as `ℚ`/`Int`; JavaScript
strings are modelled as Lean `String` with the ASCII fragment of
`toUpperCase`/`toLowerCase`.
-/

/- ===================== Character / string utilities ===================== -/

/-- Codepoints matched by the JavaScript regex class `\s`. -/
def jsWhitespaceNat (n : Nat) : Prop :=
  n = 0x20 ∨ n = 0x9 ∨ n = 0xA ∨ n = 0xB ∨ n = 0xC ∨ n = 0xD ∨
  n = 0xA0 ∨ n = 0x1680 ∨ (0x2000 ≤ n ∧ n ≤ 0x200A) ∨ n = 0x2028 ∨
  n = 0x2029 ∨ n = 0x202F ∨ n = 0x205F ∨ n = 0x3000 ∨ n = 0xFEFF

instance (n : Nat) : Decidable (jsWhitespaceNat n) := by
  unfold jsWhitespaceNat; infer_instance

/-- `c` matches the JavaScript regex class `\s`. -/
def isJsSpace (c : Char) : Bool := decide (jsWhitespaceNat c.toNat)

/-- `c` matches the JavaScript regex class `[\s-]`
(codepoint 45 is the hyphen-minus). -/
def isSpaceOrHyphen (c : Char) : Bool := isJsSpace c || decide (c.toNat = 45)

/-- List-level body of `cleanRegistrationNumber`:
`regNumber.replace(/[\s-]/g, '').toUpperCase()`. -/
def cleanList (l : List Char) : List Char :=
  (l.filter (fun c => !isSpaceOrHyphen c)).map Char.toUpper

/-- `VehicleLookupService.cleanRegistrationNumber`: remove whitespace and
hyphens, then uppercase.  (The source additionally logs a warning when the
result does not match the Finnish plate pattern but proceeds regardless;
logging is not modelled.) -/
def cleanRegistrationNumber (s : String) : String := String.mk (cleanList s.data)

/-- ASCII fragment of JavaScript `toLowerCase`, applied characterwise. -/
def toLowerList (l : List Char) : List Char := l.map Char.toLower

/-- `needle` occurs at the head of `hay`. -/
def startsWithList : List Char → List Char → Bool
  | [], _ => true
  | _ :: _, [] => false
  | a :: as, b :: bs => a == b && startsWithList as bs

/-- `hay.includes(needle)` on character lists. -/
def strContainsList : List Char → List Char → Bool
  | [], needle => needle.isEmpty
  | c :: t, needle => startsWithList needle (c :: t) || strContainsList t needle

/-- `hay.toLowerCase().includes(needle)` for an already-lowercase `needle`. -/
def containsLowerKw (hay : String) (needle : String) : Bool :=
  strContainsList (toLowerList hay.data) needle.data

/- ===================== BMW knowledge base (BMWIntelligence.ts) ===================== -/

inductive PriceLevel where
  | low
  | medium
  | high
  | premium
deriving DecidableEq, Repr

/-- The four-tier base valuation table of a reference record. -/
structure ValueTiers where
  excellent : Int
  good : Int
  fair : Int
  poor : Int
deriving DecidableEq, Repr

/-- One record of the static BMW reference table (interface `BMWModel`). -/
structure BMWModel where
  series : String
  model : String
  yearStart : Int
  yearEnd : Int
  engineCode : String
  generation : String
  chassisCode : String
  recommendedOil : String
  oilCapacity : String
  serviceIntervals : String
  commonIssues : List String
  estimatedValue : ValueTiers
  partsPriceLevel : PriceLevel
  specialNotes : Option String
deriving DecidableEq, Repr

/-- The manufacturer profile returned by `getVehicleIntelligence`
(the `bmwSpecific` payload). -/
structure BMWIntel where
  engineCode : String
  generation : String
  chassisCode : String
  recommendedOil : String
  oilCapacity : String
  serviceIntervals : String
  commonIssues : List String
  estimatedValue : String
  partsPriceLevel : PriceLevel
  specialNotes : Option String
deriving DecidableEq, Repr

/-- The fixture data of `loadBMWDatabase`. -/
def bmwModels : List BMWModel := [
  { series := "3", model := "318i", yearStart := 1998, yearEnd := 2006,
    engineCode := "M43B19", generation := "E46", chassisCode := "E46",
    recommendedOil := "BMW Longlife-01 5W-30", oilCapacity := "4.25L",
    serviceIntervals := "Every 15,000 km or 1 year",
    commonIssues := ["Cooling system plastic parts failure",
      "Window regulator failure", "Door handle breaking",
      "Subframe mounting points corrosion"],
    estimatedValue := { excellent := 8000, good := 6000, fair := 4000, poor := 2000 },
    partsPriceLevel := .medium, specialNotes := none },
  { series := "3", model := "320i", yearStart := 1998, yearEnd := 2006,
    engineCode := "M52B20/M54B22", generation := "E46", chassisCode := "E46",
    recommendedOil := "BMW Longlife-01 5W-30", oilCapacity := "6.5L",
    serviceIntervals := "Every 15,000 km or 1 year",
    commonIssues := ["VANOS system failure", "Cooling system issues",
      "Window regulator failure", "Subframe mounting points"],
    estimatedValue := { excellent := 12000, good := 9000, fair := 6000, poor := 3000 },
    partsPriceLevel := .medium, specialNotes := none },
  { series := "3", model := "320i", yearStart := 2005, yearEnd := 2013,
    engineCode := "N46B20/N43B20", generation := "E90", chassisCode := "E90/E91/E92/E93",
    recommendedOil := "BMW Longlife-04 5W-30", oilCapacity := "6.5L",
    serviceIntervals := "Every 20,000 km or 2 years",
    commonIssues := ["Timing chain stretch", "High pressure fuel pump failure",
      "Water pump failure", "Thermostat housing cracking"],
    estimatedValue := { excellent := 15000, good := 12000, fair := 8000, poor := 5000 },
    partsPriceLevel := .high, specialNotes := none },
  { series := "5", model := "520i", yearStart := 2003, yearEnd := 2010,
    engineCode := "M54B22/N43B20", generation := "E60", chassisCode := "E60/E61",
    recommendedOil := "BMW Longlife-04 5W-30", oilCapacity := "6.5L",
    serviceIntervals := "Every 20,000 km or 2 years",
    commonIssues := ["iDrive system failures", "Air suspension problems",
      "Electronic parking brake issues", "Timing chain problems"],
    estimatedValue := { excellent := 18000, good := 14000, fair := 10000, poor := 6000 },
    partsPriceLevel := .high, specialNotes := none },
  { series := "X", model := "X3", yearStart := 2003, yearEnd := 2010,
    engineCode := "M54B25/N52B25", generation := "E83", chassisCode := "E83",
    recommendedOil := "BMW Longlife-04 5W-30", oilCapacity := "6.5L",
    serviceIntervals := "Every 20,000 km or 2 years",
    commonIssues := ["Transfer case failure", "Rear differential problems",
      "Cooling system issues", "Suspension wear"],
    estimatedValue := { excellent := 16000, good := 12000, fair := 8000, poor := 5000 },
    partsPriceLevel := .high, specialNotes := none }]

/-- Model-name normalization used both by `loadBMWDatabase` grouping and by
`getVehicleIntelligence`: lowercase, then remove all whitespace
(the `/\s+/g → ''` replacement). -/
def normalizeModelKey (model : String) : String :=
  String.mk ((model.data.map Char.toLower).filter (fun c => !isJsSpace c))

/-- `bmwDatabase.get(key) || []`.  The source groups `bmwModels` into a map
keyed by normalized model name, preserving insertion order per key; filtering
the fixture list by key yields the same per-key list in the same order. -/
def bmwDatabaseGet (key : String) : List BMWModel :=
  bmwModels.filter (fun m => normalizeModelKey m.model == key)

/-- The `find` predicate `year && year >= model.yearStart && year <= model.yearEnd`
(`year` is falsy exactly when it is 0). -/
def yearMatches (year : Int) (m : BMWModel) : Bool :=
  year != 0 && decide (m.yearStart ≤ year) && decide (year ≤ m.yearEnd)

/-- JavaScript `Math.round`: round half toward positive infinity. -/
def jsRound (q : ℚ) : Int := ⌊q + 1/2⌋

/-- `Math.max(0.3, 1 - age * 0.08)`. -/
def depreciationFactor (age : Int) : ℚ := max (3/10) (1 - (age : ℚ) * (8/100))

/-- `BMWIntelligence.calculateCurrentValue`, with the wall-clock year passed
explicitly.  JavaScript doubles are modelled by exact rationals. -/
def calculateCurrentValue (currentYear : Int) (m : BMWModel) (year : Int) : String :=
  let age := currentYear - year
  let factor := depreciationFactor age
  let currentValues : ValueTiers :=
    { excellent := jsRound ((m.estimatedValue.excellent : ℚ) * factor)
      good := jsRound ((m.estimatedValue.good : ℚ) * factor)
      fair := jsRound ((m.estimatedValue.fair : ℚ) * factor)
      poor := jsRound ((m.estimatedValue.poor : ℚ) * factor) }
  "€" ++ toString currentValues.excellent ++ " (excellent) - €" ++
    toString currentValues.poor ++ " (poor condition)"

/-- `BMWIntelligence.getGenericBMWIntelligence` (only the make-model-year data
of the synthetic `VehicleInfo` argument is read, via `age`). -/
def getGenericBMWIntelligence (currentYear : Int) (year : Int) : BMWIntel :=
  let age := currentYear - year
  { engineCode := "Unknown - Check VIN decoder"
    generation := "Unknown generation"
    chassisCode := "Unknown chassis"
    recommendedOil := if 15 < age then "BMW Longlife-01 5W-30" else "BMW Longlife-04 5W-30"
    oilCapacity := "4.5-6.5L (model dependent)"
    serviceIntervals := if 15 < age then "Every 10,000 km or 1 year" else "Every 20,000 km or 2 years"
    commonIssues := ["Cooling system maintenance required",
      "Regular diagnostic scan recommended",
      "Check BMW-specific service bulletins",
      "Monitor for software updates"]
    estimatedValue := "Market research required for accurate valuation"
    partsPriceLevel := .high
    specialNotes := none }

/-- Cache key `bmw:make:model:year` of `getVehicleIntelligence`. -/
def bmwIntelCacheKey (make model : String) (year : Int) : String :=
  "bmw:" ++ make ++ ":" ++ model ++ ":" ++ toString year

/-- The profile built from a matched reference record. -/
def matchedIntelligence (currentYear : Int) (m : BMWModel) (year : Int) : BMWIntel :=
  { engineCode := m.engineCode
    generation := m.generation
    chassisCode := m.chassisCode
    recommendedOil := m.recommendedOil
    oilCapacity := m.oilCapacity
    serviceIntervals := m.serviceIntervals
    commonIssues := m.commonIssues
    estimatedValue := calculateCurrentValue currentYear m year
    partsPriceLevel := m.partsPriceLevel
    specialNotes := m.specialNotes }

/-- `BMWIntelligence.getVehicleIntelligence`.  The Redis read is an oracle
returning the already-deserialized cached profile; the second component lists
the cache writes `(key, value, ttlSeconds)` the call performs. -/
def getVehicleIntelligence (cacheGet : String → Option BMWIntel) (currentYear : Int)
    (make model : String) (year : Int) : BMWIntel × List (String × BMWIntel × Nat) :=
  let cacheKey := bmwIntelCacheKey make model year
  match cacheGet cacheKey with
  | some cached => (cached, [])
  | none =>
    let models := bmwDatabaseGet (normalizeModelKey model)
    match models.find? (yearMatches year) with
    | none =>
      let generic := getGenericBMWIntelligence currentYear year
      (generic, [(cacheKey, generic, 24 * 60 * 60)])
    | some matching =>
      let intelligence := matchedIntelligence currentYear matching year
      (intelligence, [(cacheKey, intelligence, 24 * 60 * 60)])

/-- Modelled from the spec wording of the depreciation step (spec 4.4 item 4):
factor `max(0.3, 1 - age*0.08)` applied to each condition tier, rounded to the
nearest integer, displayed via the excellent and poor bounds.  Used as the
specification side of the refinement check for the valuation formula. -/
def specCurrentValueDisplay (currentYear : Int) (m : BMWModel) (year : Int) : String :=
  let age := currentYear - year
  let factor := max (3/10 : ℚ) (1 - (age : ℚ) * (8/100))
  let dep := fun (base : Int) => jsRound ((base : ℚ) * factor)
  "€" ++ toString (dep m.estimatedValue.excellent) ++ " (excellent) - €" ++
    toString (dep m.estimatedValue.poor) ++ " (poor condition)"

/- ===================== Vehicle resolver (VehicleLookupService) ===================== -/

/-- The `dataSource` tag of a resolved vehicle (`traficom`, `02rekkari`, `cache`). -/
inductive DataSource where
  | traficom
  | rekkari
  | cache
deriving DecidableEq, Repr

/-- The `VehicleInfo` record.  `confidence` is an exact rational in place of a
JavaScript double; `timestamp` is the ISO string produced at resolution time. -/
structure VehicleInfo where
  registrationNumber : String
  make : String
  model : String
  year : Int
  color : String
  engineSize : String
  fuelType : String
  power : String
  co2Emissions : String
  euroClass : String
  vehicleClass : String
  mass : String
  seats : Int
  nextInspection : String
  taxClass : String
  bmwSpecific : Option BMWIntel
  dataSource : DataSource
  timestamp : String
  confidence : ℚ
deriving DecidableEq, Repr

/-- Decimal behavior of JavaScript `parseInt(s) || 0`: skip leading
whitespace, optional sign, read the leading digit run; no digits (NaN) and
negative zero both collapse to 0 through `|| 0`. -/
def leadingDigits : List Char → List Nat
  | [] => []
  | c :: t => if c.isDigit then (c.toNat - 48) :: leadingDigits t else []

/-- Accumulate a digit list into a natural number. -/
def digitsToNat (l : List Nat) : Nat := l.foldl (fun a d => a * 10 + d) 0

/-- JavaScript `parseInt(s) || 0` restricted to decimal notation. -/
def parseIntOr0 (s : String) : Int :=
  let l := s.data.dropWhile (fun c => isJsSpace c)
  match l with
  | '-' :: t =>
    let ds := leadingDigits t
    if ds.isEmpty then 0 else -(digitsToNat ds : Int)
  | '+' :: t =>
    let ds := leadingDigits t
    if ds.isEmpty then 0 else (digitsToNat ds : Int)
  | t =>
    let ds := leadingDigits t
    if ds.isEmpty then 0 else (digitsToNat ds : Int)

/-- The per-field strings extracted from the Traficom results page by the
in-page label scan (`page.evaluate`); a failed extraction yields `""`. -/
structure ScrapedFields where
  make : String
  model : String
  year : String
  color : String
  engineSize : String
  fuelType : String
  power : String
  co2Emissions : String
  euroClass : String
  vehicleClass : String
  mass : String
  seats : String
  nextInspection : String
  taxClass : String
deriving DecidableEq, Repr

/-- `VehicleLookupService.scrapeTraficom`.  The browser automation is the
oracle `browser`: `none` models any internal failure (timeout, selector not
found, navigation error).  An extraction with missing make or model is
rejected and reported as `none`, exactly as in the source. -/
def scrapeTraficom (browser : String → Option ScrapedFields) (ts : String)
    (registrationNumber : String) : Option VehicleInfo :=
  match browser registrationNumber with
  | none => none
  | some f =>
    if f.make == "" || f.model == "" then none
    else some {
      registrationNumber := registrationNumber
      make := f.make
      model := f.model
      year := parseIntOr0 f.year
      color := f.color
      engineSize := f.engineSize
      fuelType := f.fuelType
      power := f.power
      co2Emissions := f.co2Emissions
      euroClass := f.euroClass
      vehicleClass := f.vehicleClass
      mass := f.mass
      seats := parseIntOr0 f.seats
      nextInspection := f.nextInspection
      taxClass := f.taxClass
      bmwSpecific := none
      dataSource := .traficom
      timestamp := ts
      confidence := 9/10 }

/-- The `response.data.vehicle` payload of the 02 Rekkari API; absent
properties are `none` and fall back to `''`/`0` via `||`. -/
structure RekkariVehicle where
  make : Option String
  model : Option String
  year : Option Int
  color : Option String
  engineSize : Option String
  fuelType : Option String
  power : Option String
  co2Emissions : Option String
  euroClass : Option String
  vehicleClass : Option String
  mass : Option String
  seats : Option Int
  nextInspection : Option String
  taxClass : Option String
deriving DecidableEq, Repr

/-- `VehicleLookupService.query02Rekkari`.  A missing `REKKARI_API_KEY` is a
clean `none`; the HTTP oracle returns `none` on any transport/HTTP error or
when the response carries no `vehicle` object. -/
def query02Rekkari (apiKey : Option String) (http : String → Option RekkariVehicle)
    (ts : String) (registrationNumber : String) : Option VehicleInfo :=
  match apiKey with
  | none => none
  | some _ =>
    match http registrationNumber with
    | none => none
    | some d => some {
        registrationNumber := registrationNumber
        make := d.make.getD ""
        model := d.model.getD ""
        year := d.year.getD 0
        color := d.color.getD ""
        engineSize := d.engineSize.getD ""
        fuelType := d.fuelType.getD ""
        power := d.power.getD ""
        co2Emissions := d.co2Emissions.getD ""
        euroClass := d.euroClass.getD ""
        vehicleClass := d.vehicleClass.getD ""
        mass := d.mass.getD ""
        seats := d.seats.getD 0
        nextInspection := d.nextInspection.getD ""
        taxClass := d.taxClass.getD ""
        bmwSpecific := none
        dataSource := .rekkari
        timestamp := ts
        confidence := 19/20 }

/-- The externally visible operations `lookupVehicle` performs, in order. -/
inductive LookupEvent where
  | cacheRead
  | scraperCall
  | rekkariCall
  | cacheWrite
deriving DecidableEq, Repr

/-- Result of one `lookupVehicle` call: the returned record or thrown error
message, the cache writes `(key, record, ttlSeconds)`, and the event trace. -/
structure LookupResult where
  outcome : Except String VehicleInfo
  writes : List (String × VehicleInfo × Nat)
  trace : List LookupEvent
deriving Repr

/-- `CACHE_TTL = 30 * 24 * 60 * 60` (30 days in seconds). -/
def CACHE_TTL : Nat := 30 * 24 * 60 * 60

/-- The BMW enhancement step of `lookupVehicle` (lines 102-106): when the make
contains `'bmw'` case-insensitively, attach the knowledge-base profile and
raise confidence by 0.1 capped at 1.0. -/
def bmwEnhance (intel : VehicleInfo → BMWIntel) (vi : VehicleInfo) : VehicleInfo :=
  if containsLowerKw vi.make "bmw" then
    { vi with bmwSpecific := some (intel vi), confidence := min (vi.confidence + 1/10) 1 }
  else vi

/-- Tail of the miss path of `lookupVehicle`: enhance, cache for 30 days,
return. -/
def finalizeLookup (intel : VehicleInfo → BMWIntel) (cacheKey : String)
    (tracePre : List LookupEvent) (vi : VehicleInfo) : LookupResult :=
  let enhanced := bmwEnhance intel vi
  { outcome := .ok enhanced
    writes := [(cacheKey, enhanced, CACHE_TTL)]
    trace := tracePre ++ [.cacheWrite] }

/-- `VehicleLookupService.lookupVehicle`.  The cache read returns the
already-deserialized stored record (the store owns the JSON string; every
read is a fresh deserialization of the last full overwrite). -/
def lookupVehicle (cacheGet : String → Option VehicleInfo)
    (browser : String → Option ScrapedFields) (apiKey : Option String)
    (http : String → Option RekkariVehicle) (intel : VehicleInfo → BMWIntel)
    (ts : String) (registrationNumber : String) : LookupResult :=
  let cleanReg := cleanRegistrationNumber registrationNumber
  let cacheKey := "vehicle:" ++ cleanReg
  match cacheGet cacheKey with
  | some cachedData =>
    { outcome := .ok { cachedData with dataSource := .cache }
      writes := []
      trace := [.cacheRead] }
  | none =>
    match scrapeTraficom browser ts cleanReg with
    | some vehicleInfo =>
      finalizeLookup intel cacheKey [.cacheRead, .scraperCall] vehicleInfo
    | none =>
      match query02Rekkari apiKey http ts cleanReg with
      | some vehicleInfo =>
        finalizeLookup intel cacheKey [.cacheRead, .scraperCall, .rekkariCall] vehicleInfo
      | none =>
        { outcome := .error ("No vehicle data found for registration number: " ++ cleanReg)
          writes := []
          trace := [.cacheRead, .scraperCall, .rekkariCall] }

/- ===================== Cache store wrapper (RedisService.ts) ===================== -/

/-- Outcome of one call into the underlying Redis client: a value, or a
raised error (rejected promise). -/
inductive ClientOutcome (α : Type) where
  | ok (a : α)
  | err
deriving DecidableEq, Repr

/-- `RedisService.get`: `connected` is `isConnected && client !== null`.
Disconnected or erroring calls return the safe default `null`. -/
def redisGet (connected : Bool) (call : ClientOutcome (Option String)) : Option String :=
  if connected then
    match call with
    | .ok v => v
    | .err => none
  else none

/-- `RedisService.set`. -/
def redisSet (connected : Bool) (call : ClientOutcome Unit) : Bool :=
  if connected then
    match call with
    | .ok _ => true
    | .err => false
  else false

/-- `RedisService.setWithTTL` (`setEx`). -/
def redisSetWithTTL (connected : Bool) (call : ClientOutcome Unit) : Bool :=
  if connected then
    match call with
    | .ok _ => true
    | .err => false
  else false

/-- `RedisService.del`: `result > 0` of the deleted-key count. -/
def redisDel (connected : Bool) (call : ClientOutcome Int) : Bool :=
  if connected then
    match call with
    | .ok n => decide (0 < n)
    | .err => false
  else false

/-- `RedisService.exists`. -/
def redisExists (connected : Bool) (call : ClientOutcome Int) : Bool :=
  if connected then
    match call with
    | .ok n => decide (0 < n)
    | .err => false
  else false

/-- `RedisService.ttl`. -/
def redisTtl (connected : Bool) (call : ClientOutcome Int) : Option Int :=
  if connected then
    match call with
    | .ok t => some t
    | .err => none
  else none

/-- `RedisService.incr`. -/
def redisIncr (connected : Bool) (call : ClientOutcome Int) : Option Int :=
  if connected then
    match call with
    | .ok n => some n
    | .err => none
  else none

/-- `RedisService.keys` (pattern scan). -/
def redisKeys (connected : Bool) (call : ClientOutcome (List String)) : List String :=
  if connected then
    match call with
    | .ok ks => ks
    | .err => []
  else []

/-- `RedisService.lpush`. -/
def redisLpush (connected : Bool) (call : ClientOutcome Int) : Option Int :=
  if connected then
    match call with
    | .ok n => some n
    | .err => none
  else none

/-- `RedisService.lrange`. -/
def redisLrange (connected : Bool) (call : ClientOutcome (List String)) : List String :=
  if connected then
    match call with
    | .ok xs => xs
    | .err => []
  else []

/-- `RedisService.expire`. -/
def redisExpire (connected : Bool) (call : ClientOutcome Bool) : Bool :=
  if connected then
    match call with
    | .ok b => b
    | .err => false
  else false

/-- `RedisService.zadd`. -/
def redisZadd (connected : Bool) (call : ClientOutcome Int) : Option Int :=
  if connected then
    match call with
    | .ok n => some n
    | .err => none
  else none

/-- `RedisService.zrange`. -/
def redisZrange (connected : Bool) (call : ClientOutcome (List String)) : List String :=
  if connected then
    match call with
    | .ok xs => xs
    | .err => []
  else []

/-- `RedisService.clearCachePattern`: a `keys` call, then (when nonempty) a
`del` call; any failure yields the safe default 0. -/
def redisClearCachePattern (connected : Bool) (keysCall : ClientOutcome (List String))
    (delCall : ClientOutcome Int) : Int :=
  if connected then
    match keysCall with
    | .ok ks =>
      if ks.length == 0 then 0
      else
        match delCall with
        | .ok n => n
        | .err => 0
    | .err => 0
  else 0

/-- `RedisService.info`. -/
def redisInfo (connected : Bool) (call : ClientOutcome String) : Option String :=
  if connected then
    match call with
    | .ok s => some s
    | .err => none
  else none

/-- `RedisService.connect`: connection establishment is the one operation
that rethrows its underlying failure to the caller. -/
def redisConnect (call : ClientOutcome Unit) : Except String Unit :=
  match call with
  | .ok _ => .ok ()
  | .err => .error "Failed to connect to Redis"

/- ===================== Chat endpoint (routes/chatV2.ts) ===================== -/

/-- ASCII letter, both cases (the regex `[A-Z]` under the `/i` flag). -/
def isAsciiLetter (c : Char) : Bool :=
  decide (65 ≤ c.toNat ∧ c.toNat ≤ 90) || decide (97 ≤ c.toNat ∧ c.toNat ≤ 122)

/-- ASCII decimal digit (the regex `\d`). -/
def isDigitChar (c : Char) : Bool := decide (48 ≤ c.toNat ∧ c.toNat ≤ 57)

/-- The regex word class `\w = [A-Za-z0-9_]`, deciding `\b` boundaries. -/
def isWordChar (c : Char) : Bool :=
  isAsciiLetter c || isDigitChar c || decide (c.toNat = 95)

/-- Split off exactly `n` characters satisfying `p`. -/
def splitExact (p : Char → Bool) : Nat → List Char → Option (List Char × List Char)
  | 0, cs => some ([], cs)
  | _ + 1, [] => none
  | n + 1, c :: rest =>
    if p c then (splitExact p n rest).map (fun pr => (c :: pr.1, pr.2)) else none

/-- `\b` holds between a word character and the start of `cs`. -/
def boundaryOk : List Char → Bool
  | [] => true
  | c :: _ => !isWordChar c

/-- Match `\d{k}\b` at the head of `cs`, appending to the prefix already read. -/
def tryDigitsLen (pre : List Char) (cs : List Char) (k : Nat) : Option (List Char) :=
  match splitExact isDigitChar k cs with
  | some (d, rest) => if boundaryOk rest then some (pre ++ d) else none
  | none => none

/-- Greedy `\d{1,4}\b`: four digits down to one, with backtracking. -/
def tryDigits (pre : List Char) (cs : List Char) : Option (List Char) :=
  tryDigitsLen pre cs 4 <|> tryDigitsLen pre cs 3 <|>
    tryDigitsLen pre cs 2 <|> tryDigitsLen pre cs 1

/-- Greedy `-?` followed by the digit tail. -/
def afterLetters (pre : List Char) (cs : List Char) : Option (List Char) :=
  (match cs with
   | '-' :: rest => tryDigits (pre ++ ['-']) rest
   | _ => none) <|> tryDigits pre cs

/-- Match `[A-Z]{2,3}-?\d{1,4}\b` (case-insensitive) at the head of `cs`,
greedy on the letter count. -/
def matchRegAt (cs : List Char) : Option (List Char) :=
  (match splitExact isAsciiLetter 3 cs with
   | some (ls, rest) => afterLetters ls rest
   | none => none) <|>
  (match splitExact isAsciiLetter 2 cs with
   | some (ls, rest) => afterLetters ls rest
   | none => none)

/-- `message.match(/\b[A-Z]{2,3}-?\d{1,4}\b/i)`: the leftmost match, scanning
with the word-character status of the previous character for the leading
`\b` (the pattern starts with a word character, so the boundary holds exactly
when the previous character is not a word character). -/
def findRegMatch : Bool → List Char → Option (List Char)
  | _, [] => none
  | prevIsWord, c :: rest =>
    match (if prevIsWord then none else matchRegAt (c :: rest)) with
    | some m => some m
    | none => findRegMatch (isWordChar c) rest

/-- JavaScript `s || d` for a possibly-absent string (absent and `''` are
both falsy). -/
def jsOrElse (o : Option String) (d : String) : String :=
  match o with
  | some s => if s == "" then d else s
  | none => d

/-- The vehicle payload returned by `TraficomService.getVehicleData` as
consumed by the chat route (that service is outside the packaged sources;
only the fields the route reads are modelled, as opaque strings).
`odometerFi` is the `toLocaleString('fi-FI')`-rendered odometer when the
odometer is truthy. -/
structure TraficomVehicle where
  make : String
  model : String
  modelYear : String
  firstRegistration : String
  fuelType : String
  engineDisplacement : String
  enginePower : String
  co2Emissions : String
  odometerFi : Option String
  inspectionExpiry : Option String
deriving DecidableEq, Repr

/-- Chat message roles. -/
inductive Role where
  | user
  | assistant
deriving DecidableEq, Repr

/-- One message of a chat session. -/
structure ChatMessage where
  role : Role
  content : String
  timestamp : String
deriving DecidableEq, Repr

/-- A stored chat session. -/
structure ChatSession where
  sessionId : String
  messages : List ChatMessage
  vehicleData : Option TraficomVehicle
deriving DecidableEq, Repr

/-- The JSON body of a successful chat response. -/
structure ChatResponseBody where
  sessionId : String
  message : String
  timestamp : String
  vehicleData : Option TraficomVehicle
deriving DecidableEq, Repr

/-- HTTP-level outcome of the chat endpoint: 400 on schema violation, else
the 200 body.  (A 500 cannot occur in the model: every modelled step is
total.) -/
inductive ChatOutcome where
  | badRequest
  | ok (body : ChatResponseBody)
deriving DecidableEq, Repr

/-- Result of one chat request: the outcome plus the session write
`(key, session, ttlSeconds)` performed at the end of the 200 path. -/
structure ChatResult where
  outcome : ChatOutcome
  sessionWrite : Option (String × ChatSession × Nat)
deriving DecidableEq, Repr

/-- The booking reply template (`varaus`/`aika` keywords). -/
def bookingResponse : String :=
  "Varaa aika huoltoon tai korjaukseen:\n\n📞 **Soita:** 050 547 7779 (ma-pe 8-17)\n📧 **Sähköposti:** [email protected]\n📍 **Osoite:** [Lisää osoite]\n\nVoit myös antaa rekisterinumerosi, niin voin hakea autosi tiedot ja arvioida huoltotarpeen!"

/-- The pricing reply template (`hinta`/`hinnat` keywords). -/
def pricingResponse : String :=
  "Hinnoittelumme on reilu ja läpinäkyvä:\n\n💶 **Työtuntihinta: 89€/h** (alv 0%)\n\n**Yleisimmät huollot:**\n• Öljynvaihto: 150-300€\n• Jarrut (levyt + palat): 600-1200€\n• Jarruneste: 80-150€\n• Ilmansuodatin: 80-150€\n• Sähköinen diagnoosi: sisältyy huoltoon\n\nIsommat työt sovitaan aina erikseen ja annamme tarkan kustannusarvion ennen töiden aloitusta. \n\nAnna rekisterinumerosi, niin voin antaa tarkemman arvion autosi huoltotarpeesta! 🔧"

/-- The BMW-specialization reply template (`bmw`/`erikois` keywords). -/
def bmwSpecialResponse : String :=
  "Olemme BMW-erikoiskorjaamo Helsingissä! 🏎️\n\n**Miksi valita meidät:**\n• Yli [X] vuoden kokemus BMW-autoista\n• BMW-spesifit työkalut ja diagnoostilaitteet\n• Aidon BMW-osien käyttö\n• Sähköisen huoltokirjan päivitys\n• Henkilökohtainen palvelu\n\n**Huollamme kaikki BMW-mallit:**\n• 1-, 2-, 3-, 4-, 5-, 6-, 7-sarja\n• X-mallit (X1, X3, X5, X7)\n• M-mallit\n• i-mallit (sähkö/hybridi)\n\nAnna autosi rekisterinumero, niin haen tarkat tiedot ja huoltohistorian!"

/-- The default greeting/help reply template. -/
def defaultResponse : String :=
  "Hei! Olen Bemufixin virtuaalinen assistentti. 👋\n\nVoin auttaa sinua:\n• 🔍 Ajoneuvotietojen haussa (anna rekisterinumero)\n• 🔧 Huoltotarpeen arvioinnissa\n• 📅 Ajan varaamisessa\n• 💶 Hintatietojen antamisessa\n\n**Aloitetaan:** Anna autosi rekisterinumero (esim. ABC-123), niin haen tiedot ja kerron mitä autosi tarvitsee!\n\nTai kysy suoraan esim:\n- \"Paljonko maksaa öljynvaihto?\"\n- \"Haluan varata ajan\"\n- \"Mitä BMW-erikoisuuksia teillä on?\""

/-- Reply used when the vehicle lookup throws. -/
def lookupErrorResponse : String :=
  "Anteeksi, tapahtui virhe haettaessa ajoneuvotietoja. Yritä hetken kuluttua uudelleen tai soita meille: 050 547 7779"

/-- Reply used when the plate-shaped token fails the format check. -/
def invalidFormatResponse : String :=
  "Rekisterinumero näyttää olevan virheellisessä muodossa. Suomalainen rekisterinumero on muotoa ABC-123 tai AB-1234."

/-- Reply used when no vehicle is found for the plate. -/
def notFoundResponse (regNumber : String) : String :=
  "Valitettavasti en löytänyt tietoja rekisterinumerolla " ++ regNumber ++
    ". Tarkista että numero on oikein kirjoitettu (esim. ABC-123)."

/-- Reply used for a resolved non-BMW vehicle. -/
def nonBmwResponse (regNumber : String) (v : TraficomVehicle) : String :=
  "Löysin ajoneuvon " ++ regNumber ++ ", mutta se on " ++ v.make ++ " " ++ v.model ++
    ". \n\nOlemme erikoistuneet BMW-merkkisten autojen huoltoon ja korjauksiin. Voimme kuitenkin palvella myös muita merkkejä - ota yhteyttä suoraan puhelimitse: **050 547 7779** tai sähköpostilla, niin jutellaan lisää!"

/-- Reply used for a resolved BMW with its knowledge-base profile. -/
def bmwFoundResponse (v : TraficomVehicle) (bi : BMWIntel) : String :=
  let issuesJoined := String.intercalate "\n" (bi.commonIssues.map (fun issue => "• " ++ issue))
  "Loistavaa! Löysin ajoneuvosi tiedot:\n\n🚗 **" ++ v.make ++ " " ++ v.model ++ "** (" ++
    v.modelYear ++ ")\n📅 Ensimmäinen rekisteröinti: " ++ v.firstRegistration ++
    "\n⛽ Käyttövoima: " ++ v.fuelType ++ "\n🔧 Moottori: " ++ v.engineDisplacement ++
    "cc, " ++ v.enginePower ++ " kW\n📊 CO2: " ++ v.co2Emissions ++ " g/km\n🏃 Kilometrit: " ++
    (match v.odometerFi with
     | some o => o ++ " km"
     | none => "Ei tiedossa") ++
    "\n🔍 Seuraava katsastus: " ++ jsOrElse v.inspectionExpiry "Ei tiedossa" ++
    "\n\n**BMW-spesifiset tiedot:**\n" ++
    (if bi.chassisCode == "" then "" else "• Alusta: " ++ bi.chassisCode) ++ "\n" ++
    (if bi.engineCode == "" then "" else "• Moottorikoodi: " ++ bi.engineCode) ++
    "\n• Suositeltu öljy: " ++ bi.recommendedOil ++
    "\n• Öljymäärä: " ++ bi.oilCapacity ++
    "\n• Huoltoväli: " ++ bi.serviceIntervals ++
    "\n\n**Yleisiä ongelmia tässä mallissa:**\n" ++
    (if issuesJoined == "" then "Ei tiedossa" else issuesJoined) ++
    "\n\nVoinko auttaa sinua huoltotarpeen arvioinnissa tai varauksessa? 📅"

/-- The reply-selection rules of the chat route, first match wins: plate
pattern (with validation, lookup and the four lookup sub-cases), then
booking, pricing and BMW keyword categories, then the default reply.  Also
returns the session as updated by the BMW branch (the only branch that
attaches `vehicleData`). -/
def chatBranch (validate : String → Bool)
    (getVehicleData : String → Except Unit (Option TraficomVehicle))
    (intel : TraficomVehicle → BMWIntel)
    (message : String) (session : ChatSession) : String × ChatSession :=
  match findRegMatch false message.data with
  | some regChars =>
    let regNumber := String.mk regChars
    if validate regNumber then
      match getVehicleData regNumber with
      | .error _ => (lookupErrorResponse, session)
      | .ok (some vehicleData) =>
        if vehicleData.make == "BMW" then
          (bmwFoundResponse vehicleData (intel vehicleData),
            { session with vehicleData := some vehicleData })
        else (nonBmwResponse regNumber vehicleData, session)
      | .ok none => (notFoundResponse regNumber, session)
    else (invalidFormatResponse, session)
  | none =>
    if containsLowerKw message "varaus" || containsLowerKw message "aika" then
      (bookingResponse, session)
    else if containsLowerKw message "hinta" || containsLowerKw message "hinnat" then
      (pricingResponse, session)
    else if containsLowerKw message "bmw" || containsLowerKw message "erikois" then
      (bmwSpecialResponse, session)
    else (defaultResponse, session)

/-- `POST /api/v2/chat`.  Oracles: `cacheGet` is the deserialized Redis read,
`validate`/`getVehicleData` stand for `TraficomService` (a collaborator whose
source is not packaged), `intel` for `BMWIntelligence.getVehicleIntelligence`,
`uuid` for `uuidv4()`, `ts` for `new Date().toISOString()`.  Input schema:
message of 1..1000 characters, else a 400 response with no side effect.
The source computes `newSessionId = sessionId || uuidv4()` and guards the
cache read with `if (sessionId)`: both are JavaScript truthiness tests, so a
supplied empty-string sessionId counts as absent (fresh uuid, no cache
read); `jsOrElse` and the explicit `== ""` test model that. -/
def chatRespond (cacheGet : String → Option ChatSession) (validate : String → Bool)
    (getVehicleData : String → Except Unit (Option TraficomVehicle))
    (intel : TraficomVehicle → BMWIntel) (uuid ts : String)
    (message : String) (sessionId : Option String) : ChatResult :=
  if message.length < 1 ∨ 1000 < message.length then
    { outcome := .badRequest, sessionWrite := none }
  else
    let newSessionId := jsOrElse sessionId uuid
    let session0 : ChatSession :=
      match sessionId with
      | some sid =>
        if sid == "" then { sessionId := newSessionId, messages := [], vehicleData := none }
        else
          match cacheGet ("chat:" ++ sid) with
          | some cached => cached
          | none => { sessionId := newSessionId, messages := [], vehicleData := none }
      | none => { sessionId := newSessionId, messages := [], vehicleData := none }
    let session1 := { session0 with
      messages := session0.messages ++ [{ role := .user, content := message, timestamp := ts }] }
    let br := chatBranch validate getVehicleData intel message session1
    let session3 := { br.2 with
      messages := br.2.messages ++ [{ role := .assistant, content := br.1, timestamp := ts }] }
    let body : ChatResponseBody :=
      { sessionId := session3.sessionId, message := br.1, timestamp := ts,
        vehicleData := session3.vehicleData }
    { outcome := .ok body
      sessionWrite := some ("chat:" ++ session3.sessionId, session3, 3600) }

/- ===================== Concrete sample data for witnesses ===================== -/

/-- A stored cache record used to exercise the cache-hit path. -/
def sampleVehicle : VehicleInfo :=
  { registrationNumber := "ABC123", make := "BMW", model := "320i", year := 2005,
    color := "Musta", engineSize := "2171", fuelType := "Bensiini", power := "125",
    co2Emissions := "198", euroClass := "Euro 3", vehicleClass := "M1", mass := "1450",
    seats := 5, nextInspection := "2025-05-01", taxClass := "Henkilöauto",
    bmwSpecific := none, dataSource := .traficom, timestamp := "2024-01-01T00:00:00.000Z",
    confidence := 9/10 }

/-- Scraped fields with the model present but the make missing: the source
treats this extraction as incomplete and rejects it. -/
def sampleIncompleteFields : ScrapedFields :=
  { make := "", model := "320i", year := "2005", color := "Musta",
    engineSize := "2171", fuelType := "Bensiini", power := "125",
    co2Emissions := "198", euroClass := "Euro 3", vehicleClass := "M1",
    mass := "1450", seats := "5", nextInspection := "2025-05-01",
    taxClass := "Henkilöauto" }

/-- A complete BMW extraction. -/
def sampleBmwFields : ScrapedFields :=
  { make := "BMW", model := "320i", year := "2005", color := "Musta",
    engineSize := "2171", fuelType := "Bensiini", power := "125",
    co2Emissions := "198", euroClass := "Euro 3", vehicleClass := "M1",
    mass := "1450", seats := "5", nextInspection := "2025-05-01",
    taxClass := "Henkilöauto" }

/-- The `VehicleInfo` that `scrapeTraficom` builds from `sampleBmwFields`
for plate `ABC-123` at timestamp `"t"`. -/
def sampleBmwVehicle : VehicleInfo :=
  { registrationNumber := "ABC123", make := "BMW", model := "320i", year := 2005,
    color := "Musta", engineSize := "2171", fuelType := "Bensiini", power := "125",
    co2Emissions := "198", euroClass := "Euro 3", vehicleClass := "M1", mass := "1450",
    seats := 5, nextInspection := "2025-05-01", taxClass := "Henkilöauto",
    bmwSpecific := none, dataSource := .traficom, timestamp := "t", confidence := 9/10 }

/-- The 320i/E46 reference record (second entry of the fixture table),
whose excellent tier is 12000 and poor tier is 3000. -/
def sampleE46_320i : BMWModel :=
  { series := "3", model := "320i", yearStart := 1998, yearEnd := 2006,
    engineCode := "M52B20/M54B22", generation := "E46", chassisCode := "E46",
    recommendedOil := "BMW Longlife-01 5W-30", oilCapacity := "6.5L",
    serviceIntervals := "Every 15,000 km or 1 year",
    commonIssues := ["VANOS system failure", "Cooling system issues",
      "Window regulator failure", "Subframe mounting points"],
    estimatedValue := { excellent := 12000, good := 9000, fair := 6000, poor := 3000 },
    partsPriceLevel := .medium, specialNotes := none }

/- ===================== Char lemmas for normalization ===================== -/

theorem toNat_ofNat_valid (n : Nat) (h : n.isValidChar) : (Char.ofNat n).toNat = n := by
  unfold Char.ofNat
  rw [dif_pos h]
  rfl

theorem toUpper_toNat_of_lower (c : Char) (h : 97 ≤ c.toNat ∧ c.toNat ≤ 122) :
    (Char.toUpper c).toNat = c.toNat - 32 := by
  have hv : (c.toNat - 32).isValidChar := Or.inl (by omega)
  simp only [Char.toUpper]
  rw [if_pos ⟨h.1, h.2⟩]
  exact toNat_ofNat_valid _ hv

theorem toUpper_eq_self_of_not_lower (c : Char) (h : ¬(97 ≤ c.toNat ∧ c.toNat ≤ 122)) :
    Char.toUpper c = c := by
  simp only [Char.toUpper]
  rw [if_neg h]

theorem toUpper_idem (c : Char) : (Char.toUpper c).toUpper = Char.toUpper c := by
  by_cases h : 97 ≤ c.toNat ∧ c.toNat ≤ 122
  · have h1 := toUpper_toNat_of_lower c h
    exact toUpper_eq_self_of_not_lower _ (by omega)
  · rw [toUpper_eq_self_of_not_lower c h]
    exact toUpper_eq_self_of_not_lower c h

theorem isSpaceOrHyphen_toUpper (c : Char) (h : isSpaceOrHyphen c = false) :
    isSpaceOrHyphen (Char.toUpper c) = false := by
  by_cases hl : 97 ≤ c.toNat ∧ c.toNat ≤ 122
  · have h1 := toUpper_toNat_of_lower c hl
    simp only [isSpaceOrHyphen, isJsSpace, Bool.or_eq_false_iff,
      decide_eq_false_iff_not] at h ⊢
    unfold jsWhitespaceNat
    omega
  · rwa [toUpper_eq_self_of_not_lower c hl]

theorem cleanList_idem (l : List Char) : cleanList (cleanList l) = cleanList l := by
  induction l with
  | nil => rfl
  | cons c t ih =>
    by_cases h : isSpaceOrHyphen c = true
    · simp only [cleanList, List.filter_cons, h]
      exact ih
    · have hf : isSpaceOrHyphen c = false := by
        cases hb : isSpaceOrHyphen c
        · rfl
        · exact absurd hb h
      have hu : isSpaceOrHyphen (Char.toUpper c) = false := isSpaceOrHyphen_toUpper c hf
      simp only [cleanList, List.filter_cons, hf, hu, Bool.not_false, if_true,
        List.map_cons]
      rw [toUpper_idem]
      exact congrArg _ ih

theorem cleanList_all (l : List Char) :
    ∀ c ∈ cleanList l, isSpaceOrHyphen c = false ∧ Char.toUpper c = c := by
  intro c hc
  simp only [cleanList, List.mem_map, List.mem_filter] at hc
  obtain ⟨c', ⟨_, hq⟩, rfl⟩ := hc
  have hf : isSpaceOrHyphen c' = false := by simpa using hq
  exact ⟨isSpaceOrHyphen_toUpper c' hf, toUpper_idem c'⟩

/-- Claim C7: for every input string, registration-number normalization
(`cleanRegistrationNumber`) produces a key with no whitespace or hyphen
characters in which every character is fixed by uppercasing, and the
normalization is idempotent. -/
theorem cleanRegistrationNumber_idem_upper (s : String) :
    ((cleanRegistrationNumber s).data.all
      (fun c => !isSpaceOrHyphen c && (Char.toUpper c == c))) = true ∧
    cleanRegistrationNumber (cleanRegistrationNumber s) = cleanRegistrationNumber s := by
  constructor
  · rw [List.all_eq_true]
    intro c hc
    have h := cleanList_all s.data c hc
    simp [h.1, h.2]
  · show String.mk (cleanList (cleanList s.data)) = String.mk (cleanList s.data)
    rw [cleanList_idem]

/-- Claim C2: on a cache hit, `lookupVehicle` returns the stored record with
only `dataSource` retagged to `cache`, performs no cache write, and the event
trace is the single cache read (neither scraper nor fallback is invoked). -/
theorem lookupVehicle_cacheHit (cacheGet : String → Option VehicleInfo)
    (browser : String → Option ScrapedFields) (apiKey : Option String)
    (http : String → Option RekkariVehicle) (intel : VehicleInfo → BMWIntel)
    (ts reg : String) (v : VehicleInfo)
    (h : cacheGet ("vehicle:" ++ cleanRegistrationNumber reg) = some v) :
    lookupVehicle cacheGet browser apiKey http intel ts reg =
      { outcome := .ok { v with dataSource := .cache }, writes := [], trace := [.cacheRead] } := by
  simp only [lookupVehicle, h]

theorem lookupVehicle_cacheHit_witness :
    lookupVehicle (fun _ => some sampleVehicle) (fun _ => none) none (fun _ => none)
      (fun v => getGenericBMWIntelligence 2024 v.year) "t" "ABC-123" =
      { outcome := .ok { sampleVehicle with dataSource := .cache },
        writes := [], trace := [.cacheRead] } :=
  lookupVehicle_cacheHit (fun _ => some sampleVehicle) (fun _ => none) none (fun _ => none)
    (fun v => getGenericBMWIntelligence 2024 v.year) "t" "ABC-123" sampleVehicle rfl

theorem scrapeTraficom_eq_none (browser : String → Option ScrapedFields) (ts reg : String)
    (h : browser reg = none ∨
      ∃ f, browser reg = some f ∧ (f.make = "" ∨ f.model = "")) :
    scrapeTraficom browser ts reg = none := by
  rcases h with h | ⟨f, hf, hmm⟩
  · simp [scrapeTraficom, h]
  · have hcond : (f.make == "" || f.model == "") = true := by
      rcases hmm with h | h <;> simp [h]
    simp [scrapeTraficom, hf, hcond]

/-- Claim C1: when the cache misses, the scraper fails or extracts no
make/model, and the fallback client yields nothing, `lookupVehicle` throws
the not-found error, writes nothing to the cache, and the trace shows the
fallback invoked exactly once, after the scraper. -/
theorem lookupVehicle_bothFail_notFound (cacheGet : String → Option VehicleInfo)
    (browser : String → Option ScrapedFields) (apiKey : Option String)
    (http : String → Option RekkariVehicle) (intel : VehicleInfo → BMWIntel)
    (ts reg : String)
    (hcache : cacheGet ("vehicle:" ++ cleanRegistrationNumber reg) = none)
    (hscrape : browser (cleanRegistrationNumber reg) = none ∨
      ∃ f, browser (cleanRegistrationNumber reg) = some f ∧ (f.make = "" ∨ f.model = ""))
    (hfallback : query02Rekkari apiKey http ts (cleanRegistrationNumber reg) = none) :
    lookupVehicle cacheGet browser apiKey http intel ts reg =
      { outcome := .error ("No vehicle data found for registration number: " ++
          cleanRegistrationNumber reg),
        writes := [], trace := [.cacheRead, .scraperCall, .rekkariCall] } := by
  simp only [lookupVehicle, hcache, scrapeTraficom_eq_none browser ts _ hscrape, hfallback]

theorem lookupVehicle_bothFail_notFound_witness :
    lookupVehicle (fun _ => none) (fun _ => some sampleIncompleteFields) (some "key")
      (fun _ => none) (fun v => getGenericBMWIntelligence 2024 v.year) "t" "ABC-123" =
      { outcome := .error ("No vehicle data found for registration number: " ++
          cleanRegistrationNumber "ABC-123"),
        writes := [], trace := [.cacheRead, .scraperCall, .rekkariCall] } :=
  lookupVehicle_bothFail_notFound (fun _ => none) (fun _ => some sampleIncompleteFields)
    (some "key") (fun _ => none) (fun v => getGenericBMWIntelligence 2024 v.year) "t" "ABC-123"
    rfl (Or.inr ⟨sampleIncompleteFields, rfl, Or.inl rfl⟩) rfl

/-- Claim C6: on the resolution path (cache miss, record produced by the
scraper or by the fallback client), `lookupVehicle` attaches the knowledge
base profile and sets confidence to `min(confidence + 0.1, 1.0)` exactly when
the make contains `bmw` case-insensitively, and returns the record unchanged
otherwise. -/
theorem lookupVehicle_bmw_confidence (cacheGet : String → Option VehicleInfo)
    (browser : String → Option ScrapedFields) (apiKey : Option String)
    (http : String → Option RekkariVehicle) (intel : VehicleInfo → BMWIntel)
    (ts reg : String) (vi : VehicleInfo)
    (hcache : cacheGet ("vehicle:" ++ cleanRegistrationNumber reg) = none)
    (hres : scrapeTraficom browser ts (cleanRegistrationNumber reg) = some vi ∨
      (scrapeTraficom browser ts (cleanRegistrationNumber reg) = none ∧
       query02Rekkari apiKey http ts (cleanRegistrationNumber reg) = some vi)) :
    (containsLowerKw vi.make "bmw" = true →
      (lookupVehicle cacheGet browser apiKey http intel ts reg).outcome =
        .ok { vi with bmwSpecific := some (intel vi),
                      confidence := min (vi.confidence + 1/10) 1 }) ∧
    (containsLowerKw vi.make "bmw" = false →
      (lookupVehicle cacheGet browser apiKey http intel ts reg).outcome = .ok vi) := by
  have hgoal : (lookupVehicle cacheGet browser apiKey http intel ts reg).outcome =
      .ok (bmwEnhance intel vi) := by
    rcases hres with hs | ⟨hs, hr⟩
    · simp only [lookupVehicle, hcache, hs, finalizeLookup]
    · simp only [lookupVehicle, hcache, hs, hr, finalizeLookup]
  constructor
  · intro hbmw
    rw [hgoal]
    simp [bmwEnhance, hbmw]
  · intro hnot
    rw [hgoal]
    simp [bmwEnhance, hnot]

theorem lookupVehicle_bmw_confidence_witness :
    (lookupVehicle (fun _ => none) (fun _ => some sampleBmwFields) none (fun _ => none)
        (fun v => getGenericBMWIntelligence 2024 v.year) "t" "ABC-123").outcome =
      .ok { sampleBmwVehicle with
        bmwSpecific := some (getGenericBMWIntelligence 2024 sampleBmwVehicle.year),
        confidence := min (sampleBmwVehicle.confidence + 1/10) 1 } :=
  (lookupVehicle_bmw_confidence (fun _ => none) (fun _ => some sampleBmwFields) none
    (fun _ => none) (fun v => getGenericBMWIntelligence 2024 v.year) "t" "ABC-123"
    sampleBmwVehicle rfl (Or.inl rfl)).1 (by decide)

/-- Claim C3: on a cache miss, if some reference entry for the normalized
model name contains the year in its inclusive range, `getVehicleIntelligence`
returns the engine and chassis codes of such an entry (the first match);
otherwise (unknown model, year outside all ranges, or year 0, which the
`find` predicate treats as falsy) it returns the generic profile whose
engine code carries an `unknown` indicator.  The function is total, hence
never fails. -/
theorem getVehicleIntelligence_range_lookup (cacheGet : String → Option BMWIntel)
    (currentYear : Int) (make model : String) (year : Int)
    (hcache : cacheGet (bmwIntelCacheKey make model year) = none) :
    ((∃ m ∈ bmwDatabaseGet (normalizeModelKey model), yearMatches year m = true) →
      ∃ m ∈ bmwDatabaseGet (normalizeModelKey model), yearMatches year m = true ∧
        (getVehicleIntelligence cacheGet currentYear make model year).1.engineCode =
          m.engineCode ∧
        (getVehicleIntelligence cacheGet currentYear make model year).1.chassisCode =
          m.chassisCode) ∧
    ((¬ ∃ m ∈ bmwDatabaseGet (normalizeModelKey model), yearMatches year m = true) →
      containsLowerKw
        (getVehicleIntelligence cacheGet currentYear make model year).1.engineCode
        "unknown" = true) := by
  cases hfind : (bmwDatabaseGet (normalizeModelKey model)).find? (yearMatches year) with
  | none =>
    have hnone := List.find?_eq_none.mp hfind
    constructor
    · rintro ⟨m, hm, hp⟩
      exact absurd hp (hnone m hm)
    · intro _
      simp only [getVehicleIntelligence, hcache, hfind, getGenericBMWIntelligence]
      decide
  | some m =>
    have hmem := List.mem_of_find?_eq_some hfind
    have hp := List.find?_some hfind
    constructor
    · intro _
      refine ⟨m, hmem, hp, ?_, ?_⟩ <;>
        simp only [getVehicleIntelligence, hcache, hfind, matchedIntelligence]
    · intro hne
      exact absurd ⟨m, hmem, hp⟩ hne

theorem getVehicleIntelligence_range_lookup_witness :
    ∃ m ∈ bmwDatabaseGet (normalizeModelKey "320i"), yearMatches 2010 m = true ∧
      (getVehicleIntelligence (fun _ => none) 2024 "BMW" "320i" 2010).1.engineCode =
        m.engineCode ∧
      (getVehicleIntelligence (fun _ => none) 2024 "BMW" "320i" 2010).1.chassisCode =
        m.chassisCode :=
  (getVehicleIntelligence_range_lookup (fun _ => none) 2024 "BMW" "320i" 2010 rfl).1
    (by decide)

/-- Claim C4: the depreciated valuation equals the spec formula --
`depreciationFactor = max(0.3, 1 - age*0.08)` with `age = currentYear - year`
applied to each condition tier, rounded to the nearest integer, displayed via
the excellent and poor bounds -- and at age 10 the factor is exactly 0.3, so
an excellent-tier base of 12000 yields 3600. -/
theorem calculateCurrentValue_depreciation (currentYear year : Int) (m : BMWModel) :
    calculateCurrentValue currentYear m year = specCurrentValueDisplay currentYear m year ∧
    (currentYear - year = 10 →
      depreciationFactor (currentYear - year) = 3/10 ∧
      jsRound ((12000 : ℚ) * depreciationFactor (currentYear - year)) = 3600) := by
  constructor
  · rfl
  · intro h
    rw [h]
    constructor
    · show max (3/10 : ℚ) (1 - ((10 : Int) : ℚ) * (8/100)) = 3/10
      norm_num
    · show jsRound ((12000 : ℚ) * depreciationFactor 10) = 3600
      rw [show depreciationFactor 10 = 3/10 by
        show max (3/10 : ℚ) (1 - ((10 : Int) : ℚ) * (8/100)) = 3/10
        norm_num]
      show (⌊(12000 : ℚ) * (3/10) + 1/2⌋ : Int) = 3600
      norm_num

theorem calculateCurrentValue_depreciation_witness :
    (calculateCurrentValue 2015 sampleE46_320i 2005 =
      specCurrentValueDisplay 2015 sampleE46_320i 2005) ∧
    (depreciationFactor (2015 - 2005) = 3/10 ∧
      jsRound ((12000 : ℚ) * depreciationFactor (2015 - 2005)) = 3600) :=
  ⟨(calculateCurrentValue_depreciation 2015 2005 sampleE46_320i).1,
    (calculateCurrentValue_depreciation 2015 2005 sampleE46_320i).2 (by norm_num)⟩

/-- Claim C9: every ordinary cache-store operation returns its safe default
(`none`, `false`, `0`, or `[]`) both when the store is disconnected and when
the underlying client call raises, and the model is total so no operation
throws to the caller; connection establishment is the one operation that
surfaces its failure. -/
theorem redis_safe_defaults :
    (∀ call, redisGet false call = none) ∧ redisGet true .err = none ∧
    (∀ call, redisSet false call = false) ∧ redisSet true .err = false ∧
    (∀ call, redisSetWithTTL false call = false) ∧ redisSetWithTTL true .err = false ∧
    (∀ call, redisDel false call = false) ∧ redisDel true .err = false ∧
    (∀ call, redisExists false call = false) ∧ redisExists true .err = false ∧
    (∀ call, redisTtl false call = none) ∧ redisTtl true .err = none ∧
    (∀ call, redisIncr false call = none) ∧ redisIncr true .err = none ∧
    (∀ call, redisKeys false call = []) ∧ redisKeys true .err = [] ∧
    (∀ call, redisLpush false call = none) ∧ redisLpush true .err = none ∧
    (∀ call, redisLrange false call = []) ∧ redisLrange true .err = [] ∧
    (∀ call, redisExpire false call = false) ∧ redisExpire true .err = false ∧
    (∀ call, redisZadd false call = none) ∧ redisZadd true .err = none ∧
    (∀ call, redisZrange false call = []) ∧ redisZrange true .err = [] ∧
    (∀ keysCall delCall, redisClearCachePattern false keysCall delCall = 0) ∧
    (∀ delCall, redisClearCachePattern true .err delCall = 0) ∧
    (∀ ks, redisClearCachePattern true (.ok ks) .err = 0) ∧
    (∀ call, redisInfo false call = none) ∧ redisInfo true .err = none ∧
    (∃ e, redisConnect .err = .error e) :=
  ⟨fun _ => rfl, rfl, fun _ => rfl, rfl, fun _ => rfl, rfl, fun _ => rfl, rfl,
   fun _ => rfl, rfl, fun _ => rfl, rfl, fun _ => rfl, rfl, fun _ => rfl, rfl,
   fun _ => rfl, rfl, fun _ => rfl, rfl, fun _ => rfl, rfl, fun _ => rfl, rfl,
   fun _ => rfl, rfl, fun _ _ => rfl, fun _ => rfl,
   fun ks => match ks with
     | [] => rfl
     | _ :: _ => rfl,
   fun _ => rfl, rfl, ⟨"Failed to connect to Redis", rfl⟩⟩

theorem chatBranch_preserves (validate : String → Bool)
    (getVehicleData : String → Except Unit (Option TraficomVehicle))
    (intel : TraficomVehicle → BMWIntel) (message : String) (session : ChatSession) :
    (chatBranch validate getVehicleData intel message session).2.sessionId =
      session.sessionId ∧
    (chatBranch validate getVehicleData intel message session).2.messages =
      session.messages := by
  unfold chatBranch
  cases findRegMatch false message.data with
  | none =>
    dsimp only
    split
    · exact ⟨rfl, rfl⟩
    · split
      · exact ⟨rfl, rfl⟩
      · split
        · exact ⟨rfl, rfl⟩
        · exact ⟨rfl, rfl⟩
  | some regChars =>
    dsimp only
    split
    · cases getVehicleData (String.mk regChars) with
      | error e => exact ⟨rfl, rfl⟩
      | ok ov =>
        cases ov with
        | none => exact ⟨rfl, rfl⟩
        | some vd =>
          dsimp only
          split
          · exact ⟨rfl, rfl⟩
          · exact ⟨rfl, rfl⟩
    · exact ⟨rfl, rfl⟩

theorem chatRespond_fresh (cacheGet : String → Option ChatSession) (validate : String → Bool)
    (getVehicleData : String → Except Unit (Option TraficomVehicle))
    (intel : TraficomVehicle → BMWIntel) (uuid ts message : String)
    (sessionId : Option String) (sid : String)
    (hnot : ¬(message.length < 1 ∨ 1000 < message.length))
    (hsid : jsOrElse sessionId uuid = sid)
    (hmiss : ∀ s, sessionId = some s → s ≠ "" → cacheGet ("chat:" ++ s) = none) :
    ∃ reply vehicleData,
      chatRespond cacheGet validate getVehicleData intel uuid ts message sessionId =
        { outcome := .ok
            { sessionId := sid
              message := reply
              timestamp := ts
              vehicleData := vehicleData }
          sessionWrite := some ("chat:" ++ sid,
            { sessionId := sid
              messages := [{ role := .user, content := message, timestamp := ts },
                           { role := .assistant, content := reply, timestamp := ts }]
              vehicleData := vehicleData }, 3600) } := by
  have key : chatRespond cacheGet validate getVehicleData intel uuid ts message sessionId =
      (let br := chatBranch validate getVehicleData intel message
        { sessionId := sid,
          messages := [{ role := .user, content := message, timestamp := ts }],
          vehicleData := none }
      { outcome := .ok
          { sessionId := br.2.sessionId
            message := br.1
            timestamp := ts
            vehicleData := br.2.vehicleData }
        sessionWrite := some ("chat:" ++ br.2.sessionId,
          { sessionId := br.2.sessionId
            messages := br.2.messages ++
              [{ role := .assistant, content := br.1, timestamp := ts }]
            vehicleData := br.2.vehicleData }, 3600) } : ChatResult) := by
    cases sessionId with
    | none =>
      simp only [jsOrElse] at hsid
      subst hsid
      unfold chatRespond
      rw [if_neg hnot]
      rfl
    | some s =>
      by_cases hse : s = ""
      · subst hse
        simp only [jsOrElse, if_pos rfl] at hsid
        subst hsid
        unfold chatRespond
        rw [if_neg hnot]
        rfl
      · have hbe : (s == "") = false := beq_eq_false_iff_ne.mpr hse
        have hc := hmiss s rfl hse
        simp only [jsOrElse, hbe] at hsid
        subst hsid
        unfold chatRespond
        rw [if_neg hnot]
        simp only [jsOrElse, hbe, hc]
        rfl
  obtain ⟨hsidp, hmsgs⟩ := chatBranch_preserves validate getVehicleData intel message
    { sessionId := sid, messages := [{ role := .user, content := message, timestamp := ts }],
      vehicleData := none }
  rw [key]
  refine ⟨(chatBranch validate getVehicleData intel message
      { sessionId := sid,
        messages := [{ role := .user, content := message, timestamp := ts }],
        vehicleData := none }).1,
    (chatBranch validate getVehicleData intel message
      { sessionId := sid,
        messages := [{ role := .user, content := message, timestamp := ts }],
        vehicleData := none }).2.vehicleData, ?_⟩
  simp only [hsidp, hmsgs, List.singleton_append]

/-- Claim C8: a first chat message with no session id creates a session under
the fresh uuid, persists exactly the user message followed by the assistant
reply with a 3600-second expiry, and returns that session id. -/
theorem chatRespond_new_session (cacheGet : String → Option ChatSession)
    (validate : String → Bool) (getVehicleData : String → Except Unit (Option TraficomVehicle))
    (intel : TraficomVehicle → BMWIntel) (uuid ts message : String)
    (hlen : 1 ≤ message.length ∧ message.length ≤ 1000) :
    ∃ reply vehicleData,
      chatRespond cacheGet validate getVehicleData intel uuid ts message none =
        { outcome := .ok
            { sessionId := uuid
              message := reply
              timestamp := ts
              vehicleData := vehicleData }
          sessionWrite := some ("chat:" ++ uuid,
            { sessionId := uuid
              messages := [{ role := .user, content := message, timestamp := ts },
                           { role := .assistant, content := reply, timestamp := ts }]
              vehicleData := vehicleData }, 3600) } :=
  chatRespond_fresh cacheGet validate getVehicleData intel uuid ts message none uuid
    (by omega) rfl (fun _ h _ => nomatch h)

theorem chatRespond_new_session_witness :
    ∃ reply vehicleData,
      chatRespond (fun _ => none) (fun _ => false) (fun _ => .ok none)
          (fun _ => getGenericBMWIntelligence 2024 0) "u1" "t1" "Moi" none =
        { outcome := .ok
            { sessionId := "u1"
              message := reply
              timestamp := "t1"
              vehicleData := vehicleData }
          sessionWrite := some ("chat:" ++ "u1",
            { sessionId := "u1"
              messages := [{ role := .user, content := "Moi", timestamp := "t1" },
                           { role := .assistant, content := reply, timestamp := "t1" }]
              vehicleData := vehicleData }, 3600) } :=
  chatRespond_new_session (fun _ => none) (fun _ => false) (fun _ => .ok none)
    (fun _ => getGenericBMWIntelligence 2024 0) "u1" "t1" "Moi" (by decide)

/-- Claim C10, amended: a chat request with a nonempty sessionId absent from
the cache store does not fail and does not report not-found: it builds a
fresh session that reuses the supplied sessionId, whose history is exactly
the new user and assistant messages, persists it, and returns the same
sessionId.  (A supplied empty-string sessionId is falsy in the source and is
treated as absent: a fresh uuid is used instead.) -/
theorem chatRespond_missing_session_reuse (cacheGet : String → Option ChatSession)
    (validate : String → Bool) (getVehicleData : String → Except Unit (Option TraficomVehicle))
    (intel : TraficomVehicle → BMWIntel) (uuid ts message sid : String)
    (hlen : 1 ≤ message.length ∧ message.length ≤ 1000)
    (hne : sid ≠ "")
    (hmiss : cacheGet ("chat:" ++ sid) = none) :
    ∃ reply vehicleData,
      chatRespond cacheGet validate getVehicleData intel uuid ts message (some sid) =
        { outcome := .ok
            { sessionId := sid
              message := reply
              timestamp := ts
              vehicleData := vehicleData }
          sessionWrite := some ("chat:" ++ sid,
            { sessionId := sid
              messages := [{ role := .user, content := message, timestamp := ts },
                           { role := .assistant, content := reply, timestamp := ts }]
              vehicleData := vehicleData }, 3600) } :=
  chatRespond_fresh cacheGet validate getVehicleData intel uuid ts message (some sid) sid
    (by omega) (by simp [jsOrElse, beq_eq_false_iff_ne.mpr hne])
    (fun _ h _ => by cases h; exact hmiss)

/-- Claim C10, counterexample to the original wording: the empty string is a
supplied sessionId whose key is absent from the store (the store here is
empty), yet the response carries the fresh uuid `u1`, not the supplied empty
sessionId, because `sessionId || uuidv4()` and `if (sessionId)` treat the
empty string as absent. -/
theorem chatRespond_missing_session_counterexample :
    (fun (_ : String) => (none : Option ChatSession)) ("chat:" ++ "") = none ∧
    (chatRespond (fun _ => none) (fun _ => false) (fun _ => .ok none)
        (fun _ => getGenericBMWIntelligence 2024 0) "u1" "t1" "Moi" (some "")).outcome =
      .ok { sessionId := "u1", message := defaultResponse, timestamp := "t1",
            vehicleData := none } ∧
    ("u1" : String) ≠ "" :=
  ⟨rfl, rfl, by decide⟩

theorem chatRespond_missing_session_reuse_witness :
    ∃ reply vehicleData,
      chatRespond (fun _ => none) (fun _ => false) (fun _ => .ok none)
          (fun _ => getGenericBMWIntelligence 2024 0) "u1" "t1" "Moi" (some "s9") =
        { outcome := .ok
            { sessionId := "s9"
              message := reply
              timestamp := "t1"
              vehicleData := vehicleData }
          sessionWrite := some ("chat:" ++ "s9",
            { sessionId := "s9"
              messages := [{ role := .user, content := "Moi", timestamp := "t1" },
                           { role := .assistant, content := reply, timestamp := "t1" }]
              vehicleData := vehicleData }, 3600) } :=
  chatRespond_missing_session_reuse (fun _ => none) (fun _ => false) (fun _ => .ok none)
    (fun _ => getGenericBMWIntelligence 2024 0) "u1" "t1" "Moi" "s9" (by decide)
    (by decide) rfl

theorem chatBranch_pricing (validate : String → Bool)
    (getVehicleData : String → Except Unit (Option TraficomVehicle))
    (intel : TraficomVehicle → BMWIntel) (message : String) (session : ChatSession)
    (hreg : findRegMatch false message.data = none)
    (hvaraus : containsLowerKw message "varaus" = false)
    (haika : containsLowerKw message "aika" = false)
    (hhinta : containsLowerKw message "hinta" = true) :
    chatBranch validate getVehicleData intel message session = (pricingResponse, session) := by
  unfold chatBranch
  simp only [hreg, hvaraus, haika, hhinta, Bool.or_false, Bool.false_or, Bool.true_or]
  rfl

/-- Claim C5, amended: a message containing `hinta` with no
registration-number-shaped token receives the fixed pricing template reply
regardless of lower-priority keywords (`bmw`, `erikois`) also present,
provided no higher-priority booking keyword (`varaus`, `aika`) occurs in the
message. -/
theorem chatRespond_pricing_priority (cacheGet : String → Option ChatSession)
    (validate : String → Bool) (getVehicleData : String → Except Unit (Option TraficomVehicle))
    (intel : TraficomVehicle → BMWIntel) (uuid ts message : String)
    (sessionId : Option String)
    (hlen : 1 ≤ message.length ∧ message.length ≤ 1000)
    (hreg : findRegMatch false message.data = none)
    (hvaraus : containsLowerKw message "varaus" = false)
    (haika : containsLowerKw message "aika" = false)
    (hhinta : containsLowerKw message "hinta" = true) :
    ∃ body,
      (chatRespond cacheGet validate getVehicleData intel uuid ts message sessionId).outcome =
        .ok body ∧ body.message = pricingResponse := by
  have hnot : ¬(message.length < 1 ∨ 1000 < message.length) := by omega
  have hbr : ∀ session, chatBranch validate getVehicleData intel message session =
      (pricingResponse, session) :=
    fun session =>
      chatBranch_pricing validate getVehicleData intel message session hreg hvaraus haika hhinta
  unfold chatRespond
  rw [if_neg hnot]
  simp only [hbr]
  exact ⟨_, rfl, rfl⟩

theorem chatRespond_pricing_priority_witness :
    ∃ body,
      (chatRespond (fun _ => none) (fun _ => false) (fun _ => .ok none)
          (fun _ => getGenericBMWIntelligence 2024 0) "u1" "t1" "hinta bmw" none).outcome =
        .ok body ∧ body.message = pricingResponse :=
  chatRespond_pricing_priority (fun _ => none) (fun _ => false) (fun _ => .ok none)
    (fun _ => getGenericBMWIntelligence 2024 0) "u1" "t1" "hinta bmw" none
    (by decide) (by decide) (by decide) (by decide) (by decide)

/-- Claim C5, counterexample to the original wording: the message
`aika hinta` contains `hinta` and no registration-number-shaped token, yet
the reply is the booking template -- which differs from the pricing
template -- because the booking keyword check runs first. -/
theorem chatRespond_pricing_counterexample :
    containsLowerKw "aika hinta" "hinta" = true ∧
    findRegMatch false "aika hinta".data = none ∧
    (chatRespond (fun _ => none) (fun _ => false) (fun _ => .ok none)
        (fun _ => getGenericBMWIntelligence 2024 0) "u1" "t1" "aika hinta" none).outcome =
      .ok { sessionId := "u1", message := bookingResponse, timestamp := "t1",
            vehicleData := none } ∧
    bookingResponse ≠ pricingResponse := by
  refine ⟨by decide, by decide, rfl, by decide⟩
